import Mathlib

/-!
# Verification of the art-gallery backend core

A shallow embedding, in Lean 4, of the core of a small web backend that
exposes a read-only catalog of artworks.  The embedding covers:

* the `Artwork` domain entity (`src/domain/artwork.py`): the dataclass, its
  business rule `mark_as_sold`, and the factory/serialisation pair
  `from_dict` / `to_dict`;
* the HTTP query-parameter parsing of `GET /api/artworks`
  (`src/routes/artwork_routes.py`);
* the repository read operations `find_all`, `find_by_id`,
  `find_title_by_id` (`src/repositories/artwork_repository.py`), with the
  database modelled as a list of rows and the SQL queries given their
  standard semantics;
* the service lookup `get_artwork_by_id` (`src/services/artwork_service.py`);
* the configuration/secrets bootstrap (`src/config/__init__.py`): the
  token-file retry loop, the password fetch from the secrets API, the
  base-document/secret merge, validation, and the cached snapshot.

Modelling conventions:

* Python `Decimal` and `float` values are modelled as exact rationals `ℚ`
  (every numeric value appearing in the developments below is exactly
  representable, so no rounding behaviour is lost);
* timestamps are modelled as an abstract `Nat`; `datetime.isoformat` is an
  injective rendering to `String`;
* Python `None` and an absent dictionary key are modelled by `Option`;
  where the code distinguishes the two (a `dict.get` with a default) the
  field carries two `Option` layers;
* effects (file reads, HTTP calls, SQL execution) are passed in as explicit
  arguments describing the outside world's responses.
-/

namespace ArtGallery

/-! ## Python string primitives

Character-level models of the Python `str` methods used by the code
(`str.lower` in the route handler, `str.strip` in the token loader),
restricted to ASCII, which is all the relevant inputs use. -/

/-- ASCII model of Python `str.lower` on a single character. -/
def charLower (c : Char) : Char :=
  if 'A' ≤ c ∧ c ≤ 'Z' then Char.ofNat (c.toNat + 32) else c

/-- Model of Python `str.lower`. -/
def pyLower (s : String) : String := String.mk (s.data.map charLower)

/-- The characters Python `str.strip` removes (ASCII whitespace). -/
def isPySpace (c : Char) : Bool :=
  c = ' ' || c = '\t' || c = '\n' || c = '\r' || c = '\x0b' || c = '\x0c'

/-- Model of Python `str.strip`: drop whitespace from both ends. -/
def pyStrip (s : String) : String :=
  String.mk (((s.data.dropWhile isPySpace).reverse.dropWhile isPySpace).reverse)

/-! ## The Artwork entity (`src/domain/artwork.py`) -/

/-- A row dictionary as consumed by `Artwork.from_dict`: the shape produced
by a `RealDictCursor` row of the `artworks` table, or by `Artwork.to_dict`
output fed back in (as the tests do).

Each field is the value found under the corresponding key.  For the keys
read with a plain `data.get(k)` — where Python cannot distinguish an absent
key from a stored `None`/SQL `NULL` — a single `Option` layer models both
at once.  `title` is read with `data.get("title", "")`, where an absent key
(outer `none`) yields the default `""` while a stored `NULL` (inner `none`)
yields `None`; it therefore carries two layers.  `is_featured` / `is_sold`
are read with a `False` default; `none` models the absent key (the columns
are taken to be non-`NULL` booleans, matching their non-`Optional`
dataclass annotations). -/
structure Row where
  id : Option Int := none
  title : Option (Option String) := none
  description : Option String := none
  image_url : Option String := none
  price : Option ℚ := none
  size : Option String := none
  medium : Option String := none
  year : Option Int := none
  is_featured : Option Bool := none
  is_sold : Option Bool := none
  created_at : Option Nat := none
  updated_at : Option Nat := none
deriving DecidableEq, Repr

/-- The `Artwork` dataclass.  Field types follow the dataclass annotations,
except `title`: the annotation is `str`, but Python does not enforce it and
`from_dict` stores the row's value verbatim when the key is present, so a
stored `NULL` makes `title` `None`; the model therefore uses
`Option String` with `none` for Python `None`. -/
structure Artwork where
  id : Option Int
  title : Option String
  description : Option String
  image_url : Option String
  price : Option ℚ
  size : Option String
  medium : Option String
  year : Option Int
  is_featured : Bool := false
  is_sold : Bool := false
  created_at : Option Nat := none
  updated_at : Option Nat := none
deriving DecidableEq, Repr

/-- `Artwork.is_available`: purchasable iff not sold. -/
def Artwork.is_available (a : Artwork) : Bool := !a.is_sold

/-- `Artwork.can_be_featured`: may be featured iff not sold. -/
def Artwork.can_be_featured (a : Artwork) : Bool := !a.is_sold

/-- `Artwork.mark_as_sold`, functionally: set `is_sold = True`; then, if
`is_featured` is truthy, set it to `False`. -/
def Artwork.mark_as_sold (a : Artwork) : Artwork :=
  let a1 : Artwork := { a with is_sold := true }
  if a1.is_featured then { a1 with is_featured := false } else a1

/-- `Artwork.from_dict`.  Direct transliteration:
`data.get(k)` is the field itself for the single-layer fields;
`data.get("title", "")` is `getD` against the outer layer;
`data.get("is_featured", False)` / `data.get("is_sold", False)` are `getD
false`; the price is built by `Decimal(str(data["price"])) if
data.get("price") else None`, a *truthiness* test under which both a
missing/`NULL` price and a stored `0` yield `None` (`Decimal(str(p)) = p`
exactly, in the rational model). -/
def Artwork.from_dict (data : Row) : Artwork :=
  { id := data.id
    title := data.title.getD (some "")
    description := data.description
    image_url := data.image_url
    price := match data.price with
      | none => none
      | some p => if p = 0 then none else some p
    size := data.size
    medium := data.medium
    year := data.year
    is_featured := data.is_featured.getD false
    is_sold := data.is_sold.getD false
    created_at := data.created_at
    updated_at := data.updated_at }

/-- Injective model of `datetime.isoformat()` on the abstract timestamps. -/
def isoformat (t : Nat) : String := toString t

/-- The transport dictionary produced by `Artwork.to_dict`: timestamps have
been rendered to ISO strings, the price to a `float` (exact here). -/
structure TransportDict where
  id : Option Int
  title : Option String
  description : Option String
  image_url : Option String
  price : Option ℚ
  size : Option String
  medium : Option String
  year : Option Int
  is_featured : Bool
  is_sold : Bool
  created_at : Option String
  updated_at : Option String
deriving DecidableEq, Repr

/-- `Artwork.to_dict`.  The price is `float(self.price) if self.price else
None` — again a truthiness test, so a price of `0` serialises to `None`;
timestamps are `isoformat`-rendered when present. -/
def Artwork.to_dict (a : Artwork) : TransportDict :=
  { id := a.id
    title := a.title
    description := a.description
    image_url := a.image_url
    price := match a.price with
      | none => none
      | some p => if p = 0 then none else some p
    size := a.size
    medium := a.medium
    year := a.year
    is_featured := a.is_featured
    is_sold := a.is_sold
    created_at := a.created_at.map isoformat
    updated_at := a.updated_at.map isoformat }

/-- Round-trip preservation of the scalar fields of a row: building the
entity with `from_dict` and serialising with `to_dict` returns each of
`id, title, description, image_url, price, size, medium, year,
is_featured, is_sold` as it was stored in the row. -/
def roundTripPreserves (r : Row) : Prop :=
  let t := (Artwork.from_dict r).to_dict
  t.id = r.id ∧ r.title = some t.title ∧ t.description = r.description ∧
  t.image_url = r.image_url ∧ t.price = r.price ∧ t.size = r.size ∧
  t.medium = r.medium ∧ t.year = r.year ∧
  r.is_featured = some t.is_featured ∧ r.is_sold = some t.is_sold

/-- A database row that is simultaneously sold and featured (nothing in the
schema or in `from_dict` prevents it). -/
def soldFeaturedRow : Row :=
  { id := some 1, title := some (some "夕焼け"), is_featured := some true,
    is_sold := some true }

/-- A database row whose price is the decimal `0`. -/
def priceZeroRow : Row :=
  { id := some 2, title := some (some "小品"), price := some 0,
    is_featured := some false, is_sold := some false }

/-- The sample row of the test fixtures: price decimal `50000`. -/
def price50000Row : Row :=
  { id := some 1, title := some (some "テスト作品"),
    description := some "テスト用の作品です", image_url := some "https://example.com/a.jpg",
    price := some 50000, size := some "50x60cm", medium := some "油絵",
    year := some 2024, is_featured := some true, is_sold := some false,
    created_at := some 1700000000, updated_at := some 1700000000 }

/-- A database row whose stored title is SQL `NULL`. -/
def nullTitleRow : Row :=
  { id := some 3, title := some none, is_featured := some false,
    is_sold := some false }

/-! ## Route-level query-parameter parsing (`src/routes/artwork_routes.py`) -/

/-- The query string of `GET /api/artworks`: the raw values of the
`featured` and `sold` parameters (`none` = parameter absent). -/
structure QueryArgs where
  featured : Option String := none
  sold : Option String := none
deriving DecidableEq, Repr

/-- The pair of filters `get_artworks` passes to
`artwork_service.get_all_artworks`: each starts as `None` and, when the
parameter is present, becomes `param.lower() == "true"`. -/
def get_artworks_filters (args : QueryArgs) : Option Bool × Option Bool :=
  (args.featured.map (fun s => pyLower s == "true"),
   args.sold.map (fun s => pyLower s == "true"))

/-! ## Repository (`src/repositories/artwork_repository.py`)

The database is a list of `Row`s in table order; executing a query is given
its standard SQL semantics over that list. -/

/-- The SQL text and parameter list built by `ArtworkRepository.find_all`:
start from `SELECT * FROM artworks WHERE 1=1`, append an equality clause
and its parameter for each non-`None` filter, then the `ORDER BY`. -/
def find_all_query (featured sold : Option Bool) : String × List Bool :=
  let query := "SELECT * FROM artworks WHERE 1=1"
  let params : List Bool := []
  let qp :=
    match featured with
    | some f => (query ++ " AND is_featured = %s", params ++ [f])
    | none => (query, params)
  let qp2 :=
    match sold with
    | some s => (qp.1 ++ " AND is_sold = %s", qp.2 ++ [s])
    | none => qp
  (qp2.1 ++ " ORDER BY created_at DESC", qp2.2)

/-- Whether a row satisfies the `WHERE` clause built by `find_all`: the
conjunction of the appended equality predicates (SQL three-valued equality:
a `NULL` column satisfies no equality predicate). -/
def rowMatches (featured sold : Option Bool) (r : Row) : Bool :=
  (match featured with
   | none => true
   | some f => r.is_featured == some f) &&
  (match sold with
   | none => true
   | some s => r.is_sold == some s)

/-- Output order of `ORDER BY created_at DESC` (Postgres: larger timestamps
first, `NULL`s first under `DESC`): `createdDescLe a b` holds when `a` may
appear no later than `b`. -/
def createdDescLe (a b : Row) : Bool :=
  match a.created_at, b.created_at with
  | none, _ => true
  | some _, none => false
  | some x, some y => decide (y ≤ x)

/-- Semantics of executing the query built by `find_all` on the table:
keep the rows satisfying the `WHERE` clause, ordered by `created_at`
descending. -/
def exec_find_all (db : List Row) (featured sold : Option Bool) : List Row :=
  (db.filter (rowMatches featured sold)).mergeSort createdDescLe

/-- `ArtworkRepository.find_all`: execute the built query and map each
returned row through `Artwork.from_dict`. -/
def ArtworkRepository.find_all (db : List Row)
    (featured : Option Bool := none) (sold : Option Bool := none) : List Artwork :=
  (exec_find_all db featured sold).map Artwork.from_dict

/-- `ArtworkRepository.find_by_id`: `SELECT * FROM artworks WHERE id = %s`
with `fetchone` — the first row of the table whose `id` column equals the
argument — mapped through `from_dict`; `None` when no row matches. -/
def ArtworkRepository.find_by_id (db : List Row) (artwork_id : Int) : Option Artwork :=
  match db.find? (fun r => r.id == some artwork_id) with
  | some r => some (Artwork.from_dict r)
  | none => none

/-- `ArtworkRepository.find_title_by_id`: `SELECT title FROM artworks WHERE
id = %s` with `fetchone`.  When a row is found, `result` is the one-element
tuple `(title,)` (always truthy), and the code returns `str(title) if title
is not None else None` — the stored title itself, since `str` on a string
is the identity.  When no row is found it returns `None`. -/
def ArtworkRepository.find_title_by_id (db : List Row) (artwork_id : Int) : Option String :=
  match db.find? (fun r => r.id == some artwork_id) with
  | some r => r.title.getD none
  | none => none

/-! ## Service (`src/services/artwork_service.py`) -/

/-- `ArtworkService.get_all_artworks`: delegates to the repository. -/
def ArtworkService.get_all_artworks (db : List Row)
    (featured : Option Bool := none) (sold : Option Bool := none) : List Artwork :=
  ArtworkRepository.find_all db featured sold

/-- `ArtworkService.get_artwork_by_id`: `if not artwork: raise
ValueError(f"作品ID {artwork_id} が見つかりません")`.  A dataclass instance
is always truthy, so `not artwork` holds exactly when the repository
returned `None`; the raised `ValueError` is the `.error` case. -/
def ArtworkService.get_artwork_by_id (db : List Row) (artwork_id : Int) : Except String Artwork :=
  match ArtworkRepository.find_by_id db artwork_id with
  | some a => .ok a
  | none => .error ("作品ID " ++ toString artwork_id ++ " が見つかりません")

/-! ## Token-file loader (`src/config/__init__.py`, `_get_token_from_file`)

The outside world is `reads : Nat → Option String`: `reads i = some c`
means that at loop iteration `i` the token file exists and `read_text()`
returns `c`; `reads i = none` means the file does not exist, or the read
raises (the handler prints and falls through to the next iteration — both
cases continue the loop).  The `time.sleep(retry_interval)` between
consecutive iterations is abstracted away (no real time in the model). -/

/-- The outcome of the body of iteration `i`: the stripped content when the
file was read and its stripped content is non-empty (the `if token:`
check), otherwise nothing. -/
def tokenAttemptResult (reads : Nat → Option String) (i : Nat) : Option String :=
  match reads i with
  | none => none
  | some content => if pyStrip content = "" then none else some (pyStrip content)

/-- The `for attempt in range(max_retries)` loop of `_get_token_from_file`,
as a recursion on the remaining iteration count. -/
def token_loop (reads : Nat → Option String) (max_retries attempt fuel : Nat) :
    Except String String :=
  match fuel with
  | 0 => .error ("Token file not found after " ++ toString max_retries ++
      " attempts. Secrets API may not have started yet or failed to generate tokens.")
  | f + 1 =>
    match tokenAttemptResult reads attempt with
    | some t => .ok t
    | none => token_loop reads max_retries (attempt + 1) f

/-- `_get_token_from_file(max_retries=30, retry_interval=1)`: run the loop
from attempt `0`; falling off the loop raises `RuntimeError` (the `.error`
case). -/
def _get_token_from_file (reads : Nat → Option String) (max_retries : Nat := 30) :
    Except String String :=
  token_loop reads max_retries 0 max_retries

/-! ## Configuration load (`src/config/__init__.py`) -/

/-- A YAML mapping section, as an association list in document order. -/
abbrev ConfigSection := List (String × String)

/-- `k in section` (a dict binds each key at most once). -/
def sectionHas : ConfigSection → String → Bool
  | [], _ => false
  | kv :: rest, k => if kv.1 = k then true else sectionHas rest k

/-- `section.get(k)`. -/
def sectionGet : ConfigSection → String → Option String
  | [], _ => none
  | kv :: rest, k => if kv.1 = k then some kv.2 else sectionGet rest k

/-- `section[k] = v`: overwrite the binding of `k` when present, otherwise
append it. -/
def sectionUpdate : ConfigSection → String → String → ConfigSection
  | [], k, v => [(k, v)]
  | kv :: rest, k, v => if kv.1 = k then (k, v) :: rest else kv :: sectionUpdate rest k v

/-- `dst.update(src)`: set every binding of `src` in `dst`. -/
def sectionMerge (dst src : ConfigSection) : ConfigSection :=
  src.foldl (fun d kv => sectionUpdate d kv.1 kv.2) dst

/-- The parsed `config.yaml` document: the top-level sections the loader
touches (`none` = section absent from the document; a present section is a
mapping, which is the shape the loader's `isinstance(…, dict)` test
expects). -/
structure ConfigDoc where
  server : Option ConfigSection := none
  frontend : Option ConfigSection := none
  database : Option ConfigSection := none
  secrets_api : Option ConfigSection := none
deriving DecidableEq, Repr

/-- The secret-merge step of `_load_config`: ensure a `database` section
exists (create it empty when absent) and `update` it with the secrets'
`database` sub-dict. -/
def mergeSecrets (config : ConfigDoc) (sec : ConfigSection) : ConfigDoc :=
  { config with database := some (sectionMerge (config.database.getD []) sec) }

/-- `_get_password_from_api`: obtain the bearer token (a failure of
`_get_token_from_file` propagates), then interpret the HTTP exchange.
`apiResponse = .error e` models a `RequestException` (non-2xx via
`raise_for_status`, network failure, timeout), wrapped into a
`RuntimeError`; `.ok pw?` models a 2xx JSON body, whose `password` field is
`pw?` — `data.get("password")` missing or empty (`if not password:`) raises
`ValueError`. -/
def _get_password_from_api (tokenResult : Except String String)
    (apiResponse : Except String (Option String)) : Except String String :=
  match tokenResult with
  | .error e => .error e
  | .ok _ =>
    match apiResponse with
    | .error e => .error ("復号APIからのパスワード取得に失敗しました: " ++ e)
    | .ok pw? =>
      match pw? with
      | some pw =>
        if pw = "" then .error "復号APIからパスワードを取得できませんでした" else .ok pw
      | none => .error "復号APIからパスワードを取得できませんでした"

/-- `_load_secrets`: fetch the password; the returned `secrets` dict holds a
`database` sub-dict `{"password": pw}` exactly when the fetched password is
truthy (`if db_password:`). -/
def _load_secrets (tokenResult : Except String String)
    (apiResponse : Except String (Option String)) : Except String (Option ConfigSection) :=
  match _get_password_from_api tokenResult apiResponse with
  | .error e => .error e
  | .ok pw => .ok (if pw = "" then none else some [("password", pw)])

/-- `_load_config`: read the base document (`base` is the outcome of
`_load_config_file`: `.error` = file missing / unreadable / malformed /
empty), fetch the secrets, merge the secrets' `database` sub-dict into the
document's `database` section (created empty first when absent), then
validate: the top-level sections `server`, `database`, `secrets_api` must
be present, and the `database` section must contain a `password` key. -/
def _load_config (base : Except String ConfigDoc) (tokenResult : Except String String)
    (apiResponse : Except String (Option String)) : Except String ConfigDoc :=
  match base with
  | .error e => .error e
  | .ok config =>
    match _load_secrets tokenResult apiResponse with
    | .error e => .error e
    | .ok secretsDb =>
      let merged : ConfigDoc :=
        match secretsDb with
        | some sec => mergeSecrets config sec
        | none => config
      if merged.server = none then
        .error "config.yamlに必須項目 'server' がありません"
      else if merged.database = none then
        .error "config.yamlに必須項目 'database' がありません"
      else if merged.secrets_api = none then
        .error "config.yamlに必須項目 'secrets_api' がありません"
      else if ¬ sectionHas (merged.database.getD []) "password" then
        .error "config.yamlにdatabase.passwordがありません（復号APIから取得される必要があります）"
      else
        .ok merged

/-- `Config.load_app_config`: `cls._config = _load_config()`.  The cache
(`Config._config`; `none` models the initial empty dict) is assigned only
after `_load_config` returns; when `_load_config` raises, the exception
propagates (second component) and the assignment never executes, leaving
the cached snapshot unchanged. -/
def load_app_config (cache : Option ConfigDoc) (base : Except String ConfigDoc)
    (tokenResult : Except String String) (apiResponse : Except String (Option String)) :
    Option ConfigDoc × Option String :=
  match _load_config base tokenResult apiResponse with
  | .ok c => (some c, none)
  | .error e => (cache, some e)

/-- A well-formed base `config.yaml` document (as the Ansible deployment
generates it): all required sections present, no password yet. -/
def goodBase : ConfigDoc :=
  { server := some [("port", "5000"), ("flask_env", "production")],
    frontend := some [("url", "http://localhost:3000")],
    database := some [("host", "db"), ("port", "5432"), ("name", "gallery"), ("user", "app")],
    secrets_api := some [("url", "http://art-gallery-secrets-api:5000")] }

/-- The snapshot `_load_config` builds from `goodBase` once the secrets API
has supplied the password `test_db_password`. -/
def goodConfigMerged : ConfigDoc :=
  { server := some [("port", "5000"), ("flask_env", "production")],
    frontend := some [("url", "http://localhost:3000")],
    database := some [("host", "db"), ("port", "5432"), ("name", "gallery"), ("user", "app"),
                      ("password", "test_db_password")],
    secrets_api := some [("url", "http://art-gallery-secrets-api:5000")] }

/-! ## Theorems: the Artwork entity -/

/-- Claim C7: `mark_as_sold` establishes `is_sold = true` and
`is_featured = false` regardless of the prior featured value, and it is
idempotent: a second application leaves the artwork in the same state. -/
theorem mark_as_sold_spec (a : Artwork) :
    a.mark_as_sold.is_sold = true ∧ a.mark_as_sold.is_featured = false ∧
    a.mark_as_sold.mark_as_sold = a.mark_as_sold := by
  obtain ⟨i, t, d, u, p, sz, m, y, f, s, c, up⟩ := a
  cases f <;> simp [Artwork.mark_as_sold]

/-- Claim C9: `mark_as_sold` modifies only the `is_sold` and `is_featured`
fields; every other field of the artwork is unchanged by the call. -/
theorem mark_as_sold_frame (a : Artwork) :
    a.mark_as_sold.id = a.id ∧ a.mark_as_sold.title = a.title ∧
    a.mark_as_sold.description = a.description ∧
    a.mark_as_sold.image_url = a.image_url ∧
    a.mark_as_sold.price = a.price ∧ a.mark_as_sold.size = a.size ∧
    a.mark_as_sold.medium = a.medium ∧ a.mark_as_sold.year = a.year ∧
    a.mark_as_sold.created_at = a.created_at ∧
    a.mark_as_sold.updated_at = a.updated_at := by
  obtain ⟨i, t, d, u, p, sz, m, y, f, s, c, up⟩ := a
  cases f <;> simp [Artwork.mark_as_sold]

/-- Claim C1, counterexample: `from_dict` enforces no invariant between the
flags — the row whose stored flags are both true yields an artwork that is
simultaneously sold and featured, so "is_sold = true implies is_featured =
false" fails for `from_dict`-constructed artworks. -/
theorem from_dict_allows_sold_and_featured :
    (Artwork.from_dict soldFeaturedRow).is_sold = true ∧
    (Artwork.from_dict soldFeaturedRow).is_featured = true :=
  ⟨rfl, rfl⟩

/-- Claim C1, amended: an artwork produced by `mark_as_sold` is sold and
not featured (so the invariant holds for it); `from_dict` simply copies the
row's flags (default `false` when the key is absent), so its result
satisfies the invariant exactly when the stored row does. -/
theorem sold_clears_featured_and_from_dict_copies_flags (a : Artwork) (r : Row) :
    (a.mark_as_sold.is_sold = true ∧ a.mark_as_sold.is_featured = false) ∧
    (Artwork.from_dict r).is_featured = r.is_featured.getD false ∧
    (Artwork.from_dict r).is_sold = r.is_sold.getD false := by
  obtain ⟨i, t, d, u, p, sz, m, y, f, s, c, up⟩ := a
  cases f <;> simp [Artwork.mark_as_sold, Artwork.from_dict]

/-- Claim C2, counterexample: the row whose stored price is the decimal
`0` does not round-trip — `data.get("price")` is falsy at `0`, so the
constructed artwork has price `None` and the transport value is `None`
rather than `0.0`. -/
theorem roundTrip_fails_at_price_zero :
    ¬ roundTripPreserves priceZeroRow := by
  unfold roundTripPreserves
  decide

/-- Claim C2, amended: `from_dict` followed by `to_dict` preserves all ten
scalar fields for every row dictionary whose `title`, `is_featured` and
`is_sold` keys are present and whose `price` is not the (falsy) decimal
`0`; in particular the fixture row's decimal price `50000` round-trips to
the transport value `50000.0`. -/
theorem from_dict_to_dict_roundTrip (r : Row)
    (ht : r.title.isSome) (hf : r.is_featured.isSome) (hs : r.is_sold.isSome)
    (hp : r.price ≠ some 0) :
    roundTripPreserves r ∧
    (Artwork.from_dict price50000Row).to_dict.price = some 50000 := by
  refine ⟨?_, rfl⟩
  obtain ⟨tv, htv⟩ := Option.isSome_iff_exists.mp ht
  obtain ⟨fv, hfv⟩ := Option.isSome_iff_exists.mp hf
  obtain ⟨sv, hsv⟩ := Option.isSome_iff_exists.mp hs
  cases hpp : r.price with
  | none =>
    simp [roundTripPreserves, Artwork.from_dict, Artwork.to_dict, htv, hfv, hsv, hpp]
  | some p =>
    have hne : p ≠ 0 := fun h0 => hp (by rw [hpp, h0])
    simp [roundTripPreserves, Artwork.from_dict, Artwork.to_dict, htv, hfv, hsv, hpp, hne]

/-- Witness for the amended claim C2, at the fixture row with price
`50000`. -/
theorem from_dict_to_dict_roundTrip_witness :
    roundTripPreserves price50000Row ∧
    (Artwork.from_dict price50000Row).to_dict.price = some 50000 :=
  from_dict_to_dict_roundTrip price50000Row (by decide) (by decide) (by decide) (by decide)

/-! ## Theorems: query-parameter parsing -/

/-- Claim C3, counterexample: a present `featured` parameter whose value is
not a recognized boolean literal (here `banana`) does not leave the filter
absent — the handler passes the exact-match filter `False` to
`get_all_artworks`. -/
theorem unrecognized_param_imposes_false_filter :
    (get_artworks_filters { featured := some "banana" }).1 = some false := by
  decide

/-- Claim C3, amended: an absent parameter imposes no filter; a present
parameter always imposes an exact-match filter — the value `true`
(case-insensitively) imposes the `True` filter, and any other value,
`false` and unrecognized values alike, imposes the `False` filter. -/
theorem get_artworks_filters_spec (args : QueryArgs) :
    ((get_artworks_filters args).1 = none ↔ args.featured = none) ∧
    (∀ s, args.featured = some s →
      (get_artworks_filters args).1 =
        some (if pyLower s = "true" then true else false)) ∧
    ((get_artworks_filters args).2 = none ↔ args.sold = none) ∧
    (∀ s, args.sold = some s →
      (get_artworks_filters args).2 =
        some (if pyLower s = "true" then true else false)) := by
  obtain ⟨fp, sp⟩ := args
  refine ⟨?_, ?_, ?_, ?_⟩
  · cases fp <;> simp [get_artworks_filters]
  · intro s hs
    subst hs
    by_cases h : pyLower s = "true" <;> simp [get_artworks_filters, h]
  · cases sp <;> simp [get_artworks_filters]
  · intro s hs
    subst hs
    by_cases h : pyLower s = "true" <;> simp [get_artworks_filters, h]

/-- Witness for the amended claim C3: `featured=TRUE` imposes the `True`
filter, `sold=banana` imposes the `False` filter. -/
theorem get_artworks_filters_spec_witness :
    (get_artworks_filters ⟨some "TRUE", some "banana"⟩).1 = some true ∧
    (get_artworks_filters ⟨some "TRUE", some "banana"⟩).2 = some false :=
  ⟨((get_artworks_filters_spec ⟨some "TRUE", some "banana"⟩).2.1 "TRUE" rfl).trans (by decide),
   ((get_artworks_filters_spec ⟨some "TRUE", some "banana"⟩).2.2.2 "banana" rfl).trans (by decide)⟩

/-! ## Theorems: repository and service -/

/-- The output order of `ORDER BY created_at DESC` is transitive. -/
theorem createdDescLe_trans (a b c : Row) :
    createdDescLe a b = true → createdDescLe b c = true → createdDescLe a c = true := by
  unfold createdDescLe
  cases a.created_at <;> cases b.created_at <;> cases c.created_at <;> simp
  omega

/-- The output order of `ORDER BY created_at DESC` is total. -/
theorem createdDescLe_total (a b : Row) :
    (createdDescLe a b || createdDescLe b a) = true := by
  unfold createdDescLe
  cases a.created_at <;> cases b.created_at <;> simp
  omega

/-- Claim C6: `find_all` builds its query from the full `artworks` table,
appending the `is_featured` equality clause exactly when the featured
filter is non-absent and the `is_sold` clause exactly when the sold filter
is non-absent (the clauses conjoined by `AND`, the values passed as
parameters in clause order), always ending in `ORDER BY created_at DESC`;
semantically the result consists of exactly the rows satisfying the
conjunction of the appended equality predicates, in `created_at`-descending
order. -/
theorem find_all_spec (db : List Row) (featured sold : Option Bool) :
    ((find_all_query featured sold).1 =
        "SELECT * FROM artworks WHERE 1=1" ++
          (match featured with | none => "" | some _ => " AND is_featured = %s") ++
          (match sold with | none => "" | some _ => " AND is_sold = %s") ++
          " ORDER BY created_at DESC" ∧
      (find_all_query featured sold).2 = featured.toList ++ sold.toList) ∧
    (∀ r, r ∈ exec_find_all db featured sold ↔
      r ∈ db ∧ rowMatches featured sold r = true) ∧
    (∀ a, a ∈ ArtworkRepository.find_all db featured sold ↔
      ∃ r, r ∈ db ∧ rowMatches featured sold r = true ∧ a = Artwork.from_dict r) ∧
    List.Pairwise (fun a b => createdDescLe a b = true) (exec_find_all db featured sold) := by
  have hexec : ∀ r, r ∈ exec_find_all db featured sold ↔
      r ∈ db ∧ rowMatches featured sold r = true := by
    intro r
    unfold exec_find_all
    rw [List.mem_mergeSort, List.mem_filter]
  refine ⟨?_, hexec, ?_, ?_⟩
  · rcases featured with _ | f <;> rcases sold with _ | s <;> exact ⟨rfl, rfl⟩
  · intro a
    unfold ArtworkRepository.find_all
    rw [List.mem_map]
    constructor
    · rintro ⟨r, hr, rfl⟩
      obtain ⟨h1, h2⟩ := (hexec r).mp hr
      exact ⟨r, h1, h2, rfl⟩
    · rintro ⟨r, h1, h2, rfl⟩
      exact ⟨r, (hexec r).mpr ⟨h1, h2⟩, rfl⟩
  · unfold exec_find_all
    exact List.sorted_mergeSort createdDescLe_trans createdDescLe_total _

/-- Witness for claim C6: with `featured := true` the built SQL carries
exactly the featured clause, and the featured fixture row is returned while
the unfeatured row is filtered out. -/
theorem find_all_spec_witness :
    (find_all_query (some true) none).1 =
      "SELECT * FROM artworks WHERE 1=1 AND is_featured = %s ORDER BY created_at DESC" ∧
    Artwork.from_dict price50000Row ∈
      ArtworkRepository.find_all [priceZeroRow, price50000Row] (some true) none := by
  constructor
  · exact (find_all_spec [] (some true) none).1.1.trans rfl
  · exact ((find_all_spec [priceZeroRow, price50000Row] (some true) none).2.2.1
      (Artwork.from_dict price50000Row)).mpr
      ⟨price50000Row, List.mem_cons_of_mem _ (List.mem_singleton.mpr rfl), rfl, rfl⟩

/-- Claim C5: `find_by_id` returns the mapped entity when a row with the
requested id exists and `None` when none does (never raising); the service
`get_artwork_by_id` converts exactly that absence into an error whose
message carries the requested id, and otherwise returns an entity whose id
is the requested one. -/
theorem get_artwork_by_id_spec (db : List Row) (artwork_id : Int) :
    (ArtworkRepository.find_by_id db artwork_id = none ↔
      ∀ r ∈ db, r.id ≠ some artwork_id) ∧
    (∀ r ∈ db, r.id = some artwork_id →
      ∃ r0, r0 ∈ db ∧ r0.id = some artwork_id ∧
        ArtworkRepository.find_by_id db artwork_id = some (Artwork.from_dict r0)) ∧
    (ArtworkRepository.find_by_id db artwork_id = none →
      ArtworkService.get_artwork_by_id db artwork_id =
        .error ("作品ID " ++ toString artwork_id ++ " が見つかりません")) ∧
    (∀ a, ArtworkRepository.find_by_id db artwork_id = some a →
      ArtworkService.get_artwork_by_id db artwork_id = .ok a ∧ a.id = some artwork_id) := by
  have hfind : ∀ r0, db.find? (fun r => r.id == some artwork_id) = some r0 →
      r0 ∈ db ∧ r0.id = some artwork_id := by
    intro r0 h
    exact ⟨List.mem_of_find?_eq_some h, by simpa using List.find?_some h⟩
  refine ⟨?_, ?_, ?_, ?_⟩
  · unfold ArtworkRepository.find_by_id
    cases h : db.find? (fun r => r.id == some artwork_id) with
    | none =>
      simp only [true_iff]
      intro r hr
      simpa using List.find?_eq_none.mp h r hr
    | some r0 =>
      have hr0 := hfind r0 h
      constructor
      · intro hc
        exact absurd hc (by simp)
      · intro hall
        exact absurd hr0.2 (hall r0 hr0.1)
  · intro r hr hid
    cases h : db.find? (fun r => r.id == some artwork_id) with
    | none =>
      have := List.find?_eq_none.mp h r hr
      simp [hid] at this
    | some r0 =>
      have hr0 := hfind r0 h
      exact ⟨r0, hr0.1, hr0.2, by unfold ArtworkRepository.find_by_id; rw [h]⟩
  · intro h
    unfold ArtworkService.get_artwork_by_id
    rw [h]
  · intro a h
    refine ⟨by unfold ArtworkService.get_artwork_by_id; rw [h], ?_⟩
    unfold ArtworkRepository.find_by_id at h
    cases hf : db.find? (fun r => r.id == some artwork_id) with
    | none =>
      rw [hf] at h
      cases h
    | some r0 =>
      rw [hf] at h
      injection h with h2
      subst h2
      exact (hfind r0 hf).2

/-- Witness for claim C5: the lookup succeeds on the fixture row with the
same id, and fails on the empty table with the id in the message. -/
theorem get_artwork_by_id_spec_witness :
    (ArtworkService.get_artwork_by_id [price50000Row] 1 =
        .ok (Artwork.from_dict price50000Row) ∧
      (Artwork.from_dict price50000Row).id = some 1) ∧
    ArtworkService.get_artwork_by_id [] 2 =
      .error ("作品ID " ++ toString (2 : Int) ++ " が見つかりません") :=
  ⟨(get_artwork_by_id_spec [price50000Row] 1).2.2.2 (Artwork.from_dict price50000Row) rfl,
   (get_artwork_by_id_spec [] 2).2.2.1 rfl⟩

/-- Claim C10: `find_title_by_id` returns `None` both when no row with the
given id exists and when the first matching row stores a `NULL` title — the
two cases are indistinguishable to the caller — and returns the stored
string when the title is non-`NULL`. -/
theorem find_title_by_id_spec (db : List Row) (artwork_id : Int) :
    ((∀ r ∈ db, r.id ≠ some artwork_id) →
      ArtworkRepository.find_title_by_id db artwork_id = none) ∧
    (∀ r, db.find? (fun r => r.id == some artwork_id) = some r →
      (r.title = some none →
        ArtworkRepository.find_title_by_id db artwork_id = none) ∧
      (∀ ttl, r.title = some (some ttl) →
        ArtworkRepository.find_title_by_id db artwork_id = some ttl)) := by
  constructor
  · intro hall
    unfold ArtworkRepository.find_title_by_id
    have h : db.find? (fun r => r.id == some artwork_id) = none :=
      List.find?_eq_none.mpr (fun r hr => by simpa using hall r hr)
    rw [h]
  · intro r h
    unfold ArtworkRepository.find_title_by_id
    rw [h]
    constructor
    · intro ht
      show r.title.getD none = none
      rw [ht]
      rfl
    · intro ttl ht
      show r.title.getD none = some ttl
      rw [ht]
      rfl

/-- Witness for claim C10: the absent id and the `NULL`-title row both
yield `None`; the fixture row yields its stored title. -/
theorem find_title_by_id_spec_witness :
    ArtworkRepository.find_title_by_id [] 3 = none ∧
    ArtworkRepository.find_title_by_id [nullTitleRow] 3 = none ∧
    ArtworkRepository.find_title_by_id [price50000Row] 1 = some "テスト作品" :=
  ⟨(find_title_by_id_spec [] 3).1 (by simp),
   ((find_title_by_id_spec [nullTitleRow] 3).2 nullTitleRow rfl).1 rfl,
   ((find_title_by_id_spec [price50000Row] 1).2 price50000Row rfl).2 "テスト作品" rfl⟩

/-! ## Theorems: the token-file retry loop -/

/-- Stepping lemma: a successful attempt returns its token at once. -/
theorem token_loop_succ_some (reads : Nat → Option String) (m a f : Nat) (t : String)
    (h : tokenAttemptResult reads a = some t) :
    token_loop reads m a (f + 1) = .ok t := by
  unfold token_loop
  rw [h]

/-- Stepping lemma: a failed attempt falls through to the next one. -/
theorem token_loop_succ_none (reads : Nat → Option String) (m a f : Nat)
    (h : tokenAttemptResult reads a = none) :
    token_loop reads m a (f + 1) = token_loop reads m (a + 1) f := by
  conv_lhs => rw [token_loop]
  rw [h]

/-- A token returned by the loop comes from the first successful attempt in
the scanned window. -/
theorem token_loop_ok (reads : Nat → Option String) (m : Nat) :
    ∀ f a t, token_loop reads m a f = .ok t →
      ∃ i, a ≤ i ∧ i < a + f ∧ tokenAttemptResult reads i = some t ∧
        ∀ j, a ≤ j → j < i → tokenAttemptResult reads j = none := by
  intro f
  induction f with
  | zero =>
    intro a t h
    cases h
  | succ f ih =>
    intro a t h
    cases hr : tokenAttemptResult reads a with
    | some t0 =>
      rw [token_loop_succ_some reads m a f t0 hr] at h
      injection h with h2
      subst h2
      exact ⟨a, Nat.le_refl a, by omega, hr, fun j hj1 hj2 => by omega⟩
    | none =>
      rw [token_loop_succ_none reads m a f hr] at h
      obtain ⟨i, hi1, hi2, hi3, hi4⟩ := ih (a + 1) t h
      refine ⟨i, by omega, by omega, hi3, ?_⟩
      intro j hj1 hj2
      by_cases hje : j = a
      · subst hje
        exact hr
      · exact hi4 j (by omega) hj2

/-- The loop falls through to the error exactly when every attempt in the
scanned window fails to produce a non-empty token. -/
theorem token_loop_error_iff (reads : Nat → Option String) (m : Nat) :
    ∀ f a, (∃ e, token_loop reads m a f = .error e) ↔
      ∀ i, a ≤ i → i < a + f → tokenAttemptResult reads i = none := by
  intro f
  induction f with
  | zero =>
    intro a
    constructor
    · intro _ i hi1 hi2
      omega
    · intro _
      exact ⟨_, rfl⟩
  | succ f ih =>
    intro a
    cases hr : tokenAttemptResult reads a with
    | some t =>
      simp only [token_loop_succ_some reads m a f t hr]
      constructor
      · rintro ⟨e, he⟩
        cases he
      · intro hall
        rw [hall a (Nat.le_refl a) (by omega)] at hr
        cases hr
    | none =>
      simp only [token_loop_succ_none reads m a f hr]
      constructor
      · rintro ⟨e, he⟩ i hi1 hi2
        by_cases hia : i = a
        · subst hia
          exact hr
        · exact (ih (a + 1)).mp ⟨e, he⟩ i (by omega) (by omega)
      · intro hall
        exact (ih (a + 1)).mpr (fun i h1 h2 => hall i (by omega) (by omega))

/-- The loop inspects no attempt beyond the scanned window: file states at
later attempts cannot change its outcome. -/
theorem token_loop_congr (reads g : Nat → Option String) (m : Nat) :
    ∀ f a, (∀ i, a ≤ i → i < a + f → reads i = g i) →
      token_loop reads m a f = token_loop g m a f := by
  intro f
  induction f with
  | zero =>
    intro a _
    rfl
  | succ f ih =>
    intro a hag
    have hr : tokenAttemptResult reads a = tokenAttemptResult g a := by
      unfold tokenAttemptResult
      rw [hag a (Nat.le_refl a) (by omega)]
    cases hg : tokenAttemptResult g a with
    | some t =>
      rw [token_loop_succ_some reads m a f t (hr.trans hg),
        token_loop_succ_some g m a f t hg]
    | none =>
      rw [token_loop_succ_none reads m a f (hr.trans hg),
        token_loop_succ_none g m a f hg]
      exact ih (a + 1) (fun i h1 h2 => hag i (by omega) (by omega))

/-- A token produced by an attempt is stripped and non-empty. -/
theorem tokenAttemptResult_ne_empty (reads : Nat → Option String) (i : Nat) (t : String)
    (h : tokenAttemptResult reads i = some t) : t ≠ "" := by
  unfold tokenAttemptResult at h
  split at h
  next => cases h
  next content =>
    split at h
    next => cases h
    next hs =>
      injection h with h2
      subst h2
      exact hs

/-- Claim C8: the token-file read performs at most its fixed bound of 30
attempts — the result depends only on the first 30 file states — and it
returns (never empty) the stripped content of the first attempt at which
the file exists with non-empty stripped content, raising the fatal error if
and only if no attempt within the budget yields a non-empty token. -/
theorem get_token_from_file_spec (reads : Nat → Option String) :
    (∀ t, _get_token_from_file reads = .ok t →
      t ≠ "" ∧ ∃ i, i < 30 ∧ tokenAttemptResult reads i = some t ∧
        ∀ j, j < i → tokenAttemptResult reads j = none) ∧
    ((∃ e, _get_token_from_file reads = .error e) ↔
      ∀ i, i < 30 → tokenAttemptResult reads i = none) ∧
    (∀ g, (∀ i, i < 30 → reads i = g i) →
      _get_token_from_file reads = _get_token_from_file g) := by
  refine ⟨?_, ?_, ?_⟩
  · intro t h
    obtain ⟨i, hi1, hi2, hi3, hi4⟩ := token_loop_ok reads 30 30 0 t h
    exact ⟨tokenAttemptResult_ne_empty reads i t hi3, i, by omega, hi3,
      fun j hj => hi4 j (by omega) hj⟩
  · constructor
    · intro he i hi
      exact (token_loop_error_iff reads 30 30 0).mp he i (by omega) (by omega)
    · intro hall
      exact (token_loop_error_iff reads 30 30 0).mpr (fun i h1 h2 => hall i (by omega))
  · intro g hg
    exact token_loop_congr reads g 30 30 0 (fun i h1 h2 => hg i (by omega))

/-- Witness for claim C8: with the token file appearing (with padding) at
attempt 2, the loop returns the stripped token `tok`; with the file never
appearing, every attempt in the budget fails. -/
theorem get_token_from_file_spec_witness :
    ("tok" ≠ "" ∧ ∃ i, i < 30 ∧
      tokenAttemptResult (fun i => if i = 2 then some "  tok  " else none) i = some "tok" ∧
      ∀ j, j < i →
        tokenAttemptResult (fun i => if i = 2 then some "  tok  " else none) j = none) ∧
    (∀ i, i < 30 → tokenAttemptResult (fun _ => none) i = none) :=
  ⟨(get_token_from_file_spec (fun i => if i = 2 then some "  tok  " else none)).1 "tok" rfl,
   (get_token_from_file_spec (fun _ => none)).2.1.mp
     ⟨"Token file not found after 30 attempts. Secrets API may not have started yet or failed to generate tokens.", rfl⟩⟩

/-! ## Theorems: configuration load -/

/-- `sectionUpdate` makes the key found with the new value. -/
theorem sectionGet_update (s : ConfigSection) (k v : String) :
    sectionGet (sectionUpdate s k v) k = some v := by
  induction s with
  | nil => simp [sectionUpdate, sectionGet]
  | cons hd tl ih =>
    by_cases h : hd.1 = k
    · simp [sectionUpdate, sectionGet, h]
    · simp [sectionUpdate, sectionGet, h, ih]

/-- A password returned by `_get_password_from_api` is never empty — the
`if not password:` check raises on a missing or empty field. -/
theorem get_password_ok_ne_empty (t : Except String String)
    (a : Except String (Option String)) (pw : String)
    (h : _get_password_from_api t a = .ok pw) : pw ≠ "" := by
  unfold _get_password_from_api at h
  cases t with
  | error e => cases h
  | ok tok =>
    cases a with
    | error e => cases h
    | ok pwq =>
      cases pwq with
      | none => cases h
      | some pw0 =>
        have h2 : (if pw0 = "" then
            (Except.error "復号APIからパスワードを取得できませんでした" : Except String String)
          else Except.ok pw0) = Except.ok pw := h
        by_cases hs : pw0 = ""
        · rw [if_pos hs] at h2
          cases h2
        · rw [if_neg hs] at h2
          injection h2 with h3
          subst h3
          exact hs

/-- A successful `_load_secrets` carries a non-empty password in its
`database` sub-dict. -/
theorem load_secrets_ok (t : Except String String) (a : Except String (Option String))
    (sd : Option ConfigSection) (h : _load_secrets t a = .ok sd) :
    ∃ pw, pw ≠ "" ∧ sd = some [("password", pw)] := by
  unfold _load_secrets at h
  cases hg : _get_password_from_api t a with
  | error e =>
    rw [hg] at h
    cases h
  | ok pw =>
    rw [hg] at h
    injection h with h2
    have hne := get_password_ok_ne_empty t a pw hg
    rw [if_neg hne] at h2
    exact ⟨pw, hne, h2.symm⟩

/-- Passing the validation chain of `_load_config` yields the validated
document and the presence facts the chain checked. -/
theorem validate_chain_ok (d c : ConfigDoc)
    (h : (if d.server = none then
            (Except.error "config.yamlに必須項目 'server' がありません" : Except String ConfigDoc)
          else if d.database = none then
            Except.error "config.yamlに必須項目 'database' がありません"
          else if d.secrets_api = none then
            Except.error "config.yamlに必須項目 'secrets_api' がありません"
          else if ¬ sectionHas (d.database.getD []) "password" then
            Except.error "config.yamlにdatabase.passwordがありません（復号APIから取得される必要があります）"
          else Except.ok d) = .ok c) :
    c = d ∧ d.server ≠ none ∧ d.database ≠ none ∧ d.secrets_api ≠ none ∧
      sectionHas (d.database.getD []) "password" = true := by
  by_cases h1 : d.server = none
  · rw [if_pos h1] at h
    cases h
  rw [if_neg h1] at h
  by_cases h2 : d.database = none
  · rw [if_pos h2] at h
    cases h
  rw [if_neg h2] at h
  by_cases h3 : d.secrets_api = none
  · rw [if_pos h3] at h
    cases h
  rw [if_neg h3] at h
  by_cases h4 : ¬ sectionHas (d.database.getD []) "password"
  · rw [if_pos h4] at h
    cases h
  rw [if_neg h4] at h
  injection h with h5
  exact ⟨h5.symm, h1, h2, h3, by simpa using h4⟩

/-- A snapshot built by `_load_config` passed the whole validation: the
three required sections are present and the merged `database` section holds
the non-empty password fetched from the secrets API. -/
theorem load_config_ok_validated (base : Except String ConfigDoc)
    (t : Except String String) (a : Except String (Option String)) (c : ConfigDoc)
    (h : _load_config base t a = .ok c) :
    c.server ≠ none ∧ c.database ≠ none ∧ c.secrets_api ≠ none ∧
    ∃ pw, sectionGet (c.database.getD []) "password" = some pw ∧ pw ≠ "" := by
  unfold _load_config at h
  cases base with
  | error e => cases h
  | ok config =>
    cases hs : _load_secrets t a with
    | error e =>
      rw [hs] at h
      cases h
    | ok sd =>
      rw [hs] at h
      obtain ⟨pw, hpw, rfl⟩ := load_secrets_ok t a sd hs
      obtain ⟨hcD, h1, h2, h3, _⟩ :=
        validate_chain_ok (mergeSecrets config [("password", pw)]) c h
      subst hcD
      refine ⟨h1, h2, h3, pw, ?_, hpw⟩
      show sectionGet (sectionMerge (config.database.getD []) [("password", pw)]) "password" =
        some pw
      exact sectionGet_update (config.database.getD []) "password" pw

/-- Claim C4: a snapshot loaded by `Config.load_app_config` has passed
validation — `server`, `database` and the `secrets_api` section of the
active (remote) strategy are present, and the merged `database` section
carries a non-empty password — and the load fails atomically: on any
failure the error propagates and the previously cached snapshot is left
unchanged, so accessors only ever see the old cache or a fully validated
snapshot. -/
theorem load_app_config_validated_atomic (cache : Option ConfigDoc)
    (base : Except String ConfigDoc) (tokenResult : Except String String)
    (apiResponse : Except String (Option String)) :
    (∀ c, load_app_config cache base tokenResult apiResponse = (some c, none) →
      c.server ≠ none ∧ c.database ≠ none ∧ c.secrets_api ≠ none ∧
      ∃ pw, sectionGet (c.database.getD []) "password" = some pw ∧ pw ≠ "") ∧
    (∀ e, _load_config base tokenResult apiResponse = .error e →
      load_app_config cache base tokenResult apiResponse = (cache, some e)) ∧
    ((load_app_config cache base tokenResult apiResponse).1 = cache ∨
      ∃ c, _load_config base tokenResult apiResponse = .ok c ∧
        load_app_config cache base tokenResult apiResponse = (some c, none)) := by
  refine ⟨?_, ?_, ?_⟩
  · intro c h
    unfold load_app_config at h
    cases hl : _load_config base tokenResult apiResponse with
    | error e =>
      rw [hl] at h
      simp at h
    | ok c0 =>
      rw [hl] at h
      injection h with h1 h2
      injection h1 with h3
      subst h3
      exact load_config_ok_validated base tokenResult apiResponse c0 hl
  · intro e he
    unfold load_app_config
    rw [he]
  · cases hl : _load_config base tokenResult apiResponse with
    | error e =>
      left
      unfold load_app_config
      rw [hl]
    | ok c =>
      right
      exact ⟨c, rfl, by unfold load_app_config; rw [hl]⟩

/-- Witness for claim C4: from the well-formed base document and the test
secrets the load produces the validated merged snapshot; a failing base
read leaves the cached snapshot untouched and surfaces the error. -/
theorem load_app_config_validated_atomic_witness :
    (goodConfigMerged.server ≠ none ∧ goodConfigMerged.database ≠ none ∧
      goodConfigMerged.secrets_api ≠ none ∧
      ∃ pw, sectionGet (goodConfigMerged.database.getD []) "password" = some pw ∧ pw ≠ "") ∧
    load_app_config (some goodConfigMerged) (.error "config.yaml が空です")
        (.ok "test_backend_token_12345") (.ok (some "test_db_password")) =
      (some goodConfigMerged, some "config.yaml が空です") :=
  ⟨(load_app_config_validated_atomic none (.ok goodBase) (.ok "test_backend_token_12345")
      (.ok (some "test_db_password"))).1 goodConfigMerged (by decide),
   (load_app_config_validated_atomic (some goodConfigMerged) (.error "config.yaml が空です")
      (.ok "test_backend_token_12345") (.ok (some "test_db_password"))).2.1
     "config.yaml が空です" rfl⟩

end ArtGallery
